import Mathlib

/-!
Verification of the LinkedIn-to-Odoo contact uploader front end.

The development shallowly embeds the extension's pure logic:

* `ProfileRecord` and `isProfileDataEmpty` from the content script
  (`scrapeLinkedInProfile` / `isProfileDataEmpty` in background.js),
* `Payload` and `isPayloadDataEmpty` from the popup script,
* the campaign tag algebra (`handleCampaignChange` / `applyCampaignTags`)
  from the popup script,
* the main-pass / overlay-pass merge of `scrapeProfileAndContactInfo`,
* the additional-info composition of `scrapeLinkedInProfile`,
* the click handler `handleFloatingButtonClick`, the identity check
  `checkContactStatus`, the popup upload `handleUpload`, and the URL
  canonicalization performed at the start of `scrapeLinkedInProfile`.

Network and DOM effects are passed in as explicit outcome values; each model
function returns the externally observable results (new state, whether a
request was issued, whether an error was surfaced).
-/

/-- The profile record produced by `scrapeLinkedInProfile` in background.js.
All fields are strings; the empty string stands for an absent value, matching
JavaScript truthiness on the fields. -/
structure ProfileRecord where
  url : String
  name : String
  job_position : String
  photo : String
  company : String
  city : String
  website : String
  email : String
  phone : String
  additional_info : String
  company_photo : String
  company_linkedin_url : String
  birthday : String
deriving DecidableEq, Repr

/-- The key fields inspected by `isProfileDataEmpty` (background.js, in the
order of its `keyFields` array). -/
def profileKeyFields : List (ProfileRecord → String) :=
  [(·.name), (·.job_position), (·.company), (·.city),
   (·.website), (·.email), (·.phone), (·.additional_info)]

/-- `isProfileDataEmpty` from background.js / content.js: returns `false` as
soon as one key field holds a (truthy, i.e. non-empty) value. -/
def isProfileDataEmpty (data : ProfileRecord) : Bool :=
  profileKeyFields.all (fun f => f data == "")

/-- The payload assembled by the popup's `handleUpload` from the form fields;
`value.trim() || null` makes the empty string and `null` coincide, so every
field is a plain string here. -/
structure Payload where
  name : String
  company : String
  job_position : String
  email : String
  phone : String
  website : String
  city : String
  photo : String
  company_photo : String
  company_linkedin_url : String
deriving DecidableEq, Repr

/-- The key fields inspected by the popup's `isPayloadDataEmpty`, in the order
of its `keyFields` array. -/
def payloadKeyFields : List (Payload → String) :=
  [(·.name), (·.company), (·.job_position), (·.email), (·.phone),
   (·.website), (·.city), (·.photo), (·.company_photo), (·.company_linkedin_url)]

/-- `isPayloadDataEmpty` from the popup script. -/
def isPayloadDataEmpty (payload : Payload) : Bool :=
  payloadKeyFields.all (fun f => f payload == "")

/-- A record that is empty in every field except `url`/`website`. -/
def websiteOnlyRecord : ProfileRecord :=
  { url := "https://www.linkedin.com/in/a", name := "", job_position := "",
    photo := "", company := "", city := "",
    website := "https://www.linkedin.com/in/a", email := "", phone := "",
    additional_info := "", company_photo := "", company_linkedin_url := "",
    birthday := "" }

/-- A record whose only non-empty field besides `url` is `photo`. -/
def photoOnlyRecord : ProfileRecord :=
  { url := "", name := "", job_position := "",
    photo := "https://media.example/p.jpg", company := "", city := "",
    website := "", email := "", phone := "",
    additional_info := "", company_photo := "", company_linkedin_url := "",
    birthday := "" }

/-- Claim C1 is false as stated: `websiteOnlyRecord` is empty in every field
except `url`/`website`, yet `isProfileDataEmpty` returns `false` (the code
counts `website` as data); and `photoOnlyRecord` has a non-empty field other
than `url`/`website` (`photo`), yet `isProfileDataEmpty` returns `true` (the
code never inspects `photo`). -/
theorem isEmpty_claim_counterexample :
    (websiteOnlyRecord.name = "" ∧ websiteOnlyRecord.job_position = "" ∧
     websiteOnlyRecord.photo = "" ∧ websiteOnlyRecord.company = "" ∧
     websiteOnlyRecord.city = "" ∧ websiteOnlyRecord.email = "" ∧
     websiteOnlyRecord.phone = "" ∧ websiteOnlyRecord.additional_info = "" ∧
     websiteOnlyRecord.company_photo = "" ∧
     websiteOnlyRecord.company_linkedin_url = "" ∧
     websiteOnlyRecord.birthday = "" ∧
     isProfileDataEmpty websiteOnlyRecord = false) ∧
    (photoOnlyRecord.photo ≠ "" ∧ isProfileDataEmpty photoOnlyRecord = true) := by
  decide

/-- Claim C1, amended: the emptiness predicates ignore only `url` (and, for
`isProfileDataEmpty`, also `photo`, `company_photo`, `company_linkedin_url`
and `birthday`; for `isPayloadDataEmpty`, the tag/info arrays): each returns
`true` exactly when every field of its key-field list — a list that does
include `website` — is empty. -/
theorem isEmpty_key_fields_iff :
    (∀ d : ProfileRecord, isProfileDataEmpty d = true ↔
      (d.name = "" ∧ d.job_position = "" ∧ d.company = "" ∧ d.city = "" ∧
       d.website = "" ∧ d.email = "" ∧ d.phone = "" ∧ d.additional_info = "")) ∧
    (∀ p : Payload, isPayloadDataEmpty p = true ↔
      (p.name = "" ∧ p.company = "" ∧ p.job_position = "" ∧ p.email = "" ∧
       p.phone = "" ∧ p.website = "" ∧ p.city = "" ∧ p.photo = "" ∧
       p.company_photo = "" ∧ p.company_linkedin_url = "")) := by
  constructor
  · intro d
    simp [isProfileDataEmpty, profileKeyFields, and_assoc]
  · intro p
    simp [isPayloadDataEmpty, payloadKeyFields, and_assoc]

/-- A campaign as served by the backend's `/campaigns` endpoint and consumed
by the popup (`id` is a uuid string, `name` the label used as auto-tag). -/
structure Campaign where
  id : String
  name : String
  person_tags : List String
  company_tags : List String
deriving DecidableEq, Repr

/-- The popup's global tag state: the `personTags` and `companyTags` arrays. -/
structure TagState where
  personTags : List String
  companyTags : List String
deriving DecidableEq, Repr

/-- `allCampaigns.find(c => c.id == currentCampaignId)`: with a `null`
campaign id no campaign matches (loose equality of a string id and `null`
is false). -/
def findCampaign (campaigns : List Campaign) : Option String → Option Campaign
  | none => none
  | some i => campaigns.find? (fun c => c.id == i)

/-- The removal set built by `handleCampaignChange`: the declared tags of the
departing campaign, plus its name when the name is truthy. -/
def removalTags (declared : List String) (nm : String) : List String :=
  if nm != "" then declared ++ [nm] else declared

/-- The in-place removal loops of `handleCampaignChange`: drop every tag that
is in the removal set of the old campaign. -/
def removeCampaignTags (old : Campaign) (st : TagState) : TagState :=
  { personTags :=
      st.personTags.filter (fun t => !(removalTags old.person_tags old.name).contains t),
    companyTags :=
      st.companyTags.filter (fun t => !(removalTags old.company_tags old.name).contains t) }

/-- One `if (!arr.includes(tag)) arr.push(tag)` step. -/
def addIfAbsent (tags : List String) (t : String) : List String :=
  if tags.contains t then tags else tags ++ [t]

/-- One partition of `applyCampaignTags`: append each declared tag when not
already present, then the campaign name (only when truthy and not present). -/
def addCampaignList (tags declared : List String) (nm : String) : List String :=
  let t1 := declared.foldl addIfAbsent tags
  if nm != "" then addIfAbsent t1 nm else t1

/-- `applyCampaignTags(campaignId, forceApplyCompany)` from the popup script:
look the campaign up, append its person tags and its name (each only when not
already present), and do the same for the company partition when
`forceApplyCompany` is set. -/
def applyCampaignTags (campaigns : List Campaign) (campaignId : Option String)
    (forceApplyCompany : Bool) (st : TagState) : TagState :=
  match findCampaign campaigns campaignId with
  | none => st
  | some c =>
    { personTags := addCampaignList st.personTags c.person_tags c.name,
      companyTags :=
        if forceApplyCompany then addCampaignList st.companyTags c.company_tags c.name
        else st.companyTags }

/-- `handleCampaignChange` from the popup script: remove the old campaign's
contribution, persist the new id, then apply the new campaign's tags with
`forceApplyCompany = true`. `newId = none` models the `"None"` choice. -/
def handleCampaignChange (campaigns : List Campaign) (currentId newId : Option String)
    (st : TagState) : TagState :=
  let st1 :=
    match findCampaign campaigns currentId with
    | some oldC => removeCampaignTags oldC st
    | none => st
  applyCampaignTags campaigns newId true st1

/-- The tag contribution of a campaign partition as the specification words
it: the declared tags together with the campaign name. -/
def contribTags (declared : List String) (nm : String) : List String :=
  declared ++ [nm]

theorem contains_iff_mem (l : List String) (a : String) :
    l.contains a = true ↔ a ∈ l := by
  simp [List.contains, List.elem_iff]

theorem mem_addIfAbsent (l : List String) (x t : String) :
    t ∈ addIfAbsent l x ↔ t ∈ l ∨ t = x := by
  by_cases h : l.contains x
  · rw [contains_iff_mem] at h
    simp only [addIfAbsent]
    rw [if_pos]
    · constructor
      · exact fun ht => Or.inl ht
      · rintro (ht | rfl)
        · exact ht
        · exact h
    · rw [contains_iff_mem]; exact h
  · simp only [addIfAbsent, h, if_false, Bool.false_eq_true]
    simp [List.mem_append]

theorem mem_foldl_addIfAbsent (l : List String) (init : List String) (t : String) :
    t ∈ l.foldl addIfAbsent init ↔ t ∈ init ∨ t ∈ l := by
  induction l generalizing init with
  | nil => simp
  | cons x xs ih =>
    simp only [List.foldl_cons, ih, mem_addIfAbsent, List.mem_cons]
    tauto

theorem addIfAbsent_of_mem {l : List String} {x : String} (h : x ∈ l) :
    addIfAbsent l x = l := by
  simp only [addIfAbsent]
  rw [if_pos]
  rw [contains_iff_mem]
  exact h

theorem foldl_addIfAbsent_of_subset {l init : List String}
    (h : ∀ x ∈ l, x ∈ init) : l.foldl addIfAbsent init = init := by
  induction l with
  | nil => rfl
  | cons x xs ih =>
    have hx : x ∈ init := h x (List.mem_cons_self x xs)
    simp only [List.foldl_cons, addIfAbsent_of_mem hx]
    exact ih (fun y hy => h y (List.mem_cons_of_mem x hy))

theorem mem_filter_removal (l rem : List String) (t : String) :
    t ∈ l.filter (fun x => !rem.contains x) ↔ t ∈ l ∧ t ∉ rem := by
  simp [List.mem_filter, contains_iff_mem]

theorem mem_addCampaignList (tags declared : List String) (nm t : String)
    (hnm : nm ≠ "") :
    t ∈ addCampaignList tags declared nm ↔
      t ∈ tags ∨ t ∈ contribTags declared nm := by
  have hb : (nm != "") = true := by simp [bne_iff_ne, hnm]
  simp only [addCampaignList, hb, if_true, mem_addIfAbsent, mem_foldl_addIfAbsent,
    contribTags, List.mem_append, List.mem_singleton]
  tauto

theorem addCampaignList_idem (tags declared : List String) (nm : String) :
    addCampaignList (addCampaignList tags declared nm) declared nm =
      addCampaignList tags declared nm := by
  unfold addCampaignList
  by_cases h : (nm != "") = true
  · simp only [h, if_true]
    have h1 : ∀ x ∈ declared, x ∈ addIfAbsent (declared.foldl addIfAbsent tags) nm := by
      intro x hx
      rw [mem_addIfAbsent]
      left
      rw [mem_foldl_addIfAbsent]
      exact Or.inr hx
    rw [foldl_addIfAbsent_of_subset h1]
    apply addIfAbsent_of_mem
    rw [mem_addIfAbsent]
    right
    rfl
  · simp only [if_neg h]
    apply foldl_addIfAbsent_of_subset
    intro x hx
    rw [mem_foldl_addIfAbsent]
    exact Or.inr hx

/-- Claim C2: changing the active campaign from `A` to `B` (including `B` =
none) removes, from each partition, exactly the values of `A`'s contribution
(declared tags plus name) that `B` does not also produce, and adds every value
of `B`'s contribution — stated as a membership characterization of the
resulting tag sets, and checked on the specification's own example, where
person tags `["Manual", "Lead", "Q4"]` become exactly `["Manual", "Hot",
"Q1"]`. -/
theorem campaign_change_set_semantics :
    (∀ (campaigns : List Campaign) (curId newId : Option String) (st : TagState)
        (A B : Campaign),
      findCampaign campaigns curId = some A →
      findCampaign campaigns newId = some B →
      A.name ≠ "" → B.name ≠ "" →
      ∀ t : String,
        (t ∈ (handleCampaignChange campaigns curId newId st).personTags ↔
          ((t ∈ st.personTags ∧
              ¬(t ∈ contribTags A.person_tags A.name ∧
                t ∉ contribTags B.person_tags B.name)) ∨
            t ∈ contribTags B.person_tags B.name)) ∧
        (t ∈ (handleCampaignChange campaigns curId newId st).companyTags ↔
          ((t ∈ st.companyTags ∧
              ¬(t ∈ contribTags A.company_tags A.name ∧
                t ∉ contribTags B.company_tags B.name)) ∨
            t ∈ contribTags B.company_tags B.name))) ∧
    (∀ (campaigns : List Campaign) (curId newId : Option String) (st : TagState)
        (A : Campaign),
      findCampaign campaigns curId = some A →
      findCampaign campaigns newId = none →
      A.name ≠ "" →
      ∀ t : String,
        (t ∈ (handleCampaignChange campaigns curId newId st).personTags ↔
          (t ∈ st.personTags ∧ t ∉ contribTags A.person_tags A.name)) ∧
        (t ∈ (handleCampaignChange campaigns curId newId st).companyTags ↔
          (t ∈ st.companyTags ∧ t ∉ contribTags A.company_tags A.name))) ∧
    handleCampaignChange
        [⟨"idA", "Q4", ["Lead"], []⟩, ⟨"idB", "Q1", ["Hot"], []⟩]
        (some "idA") (some "idB") ⟨["Manual", "Lead", "Q4"], []⟩ =
      ⟨["Manual", "Hot", "Q1"], ["Q1"]⟩ := by
  refine ⟨?_, ?_, by decide⟩
  · intro campaigns curId newId st A B hA hB hAn hBn t
    have hAb : (A.name != "") = true := by simp [bne_iff_ne, hAn]
    have hremP : removalTags A.person_tags A.name = contribTags A.person_tags A.name := by
      simp [removalTags, contribTags, hAb]
    have hremC : removalTags A.company_tags A.name = contribTags A.company_tags A.name := by
      simp [removalTags, contribTags, hAb]
    simp only [handleCampaignChange, hA, applyCampaignTags, hB, if_true,
      removeCampaignTags, hremP, hremC]
    constructor
    · rw [mem_addCampaignList _ _ _ t hBn]
      rw [mem_filter_removal]
      tauto
    · rw [mem_addCampaignList _ _ _ t hBn]
      rw [mem_filter_removal]
      tauto
  · intro campaigns curId newId st A hA hB hAn t
    have hAb : (A.name != "") = true := by simp [bne_iff_ne, hAn]
    have hremP : removalTags A.person_tags A.name = contribTags A.person_tags A.name := by
      simp [removalTags, contribTags, hAb]
    have hremC : removalTags A.company_tags A.name = contribTags A.company_tags A.name := by
      simp [removalTags, contribTags, hAb]
    simp only [handleCampaignChange, hA, applyCampaignTags, hB,
      removeCampaignTags, hremP, hremC]
    constructor
    · rw [mem_filter_removal]
    · rw [mem_filter_removal]

/-- Witness for claim C2's theorem, instantiated at the specification's own
example (switching campaign `Q4` to campaign `Q1` with person tags
`["Manual", "Lead", "Q4"]`), at the tag `"Manual"`. -/
theorem campaign_change_set_semantics_witness :
    "Manual" ∈ (handleCampaignChange
        [⟨"idA", "Q4", ["Lead"], []⟩, ⟨"idB", "Q1", ["Hot"], []⟩]
        (some "idA") (some "idB") ⟨["Manual", "Lead", "Q4"], []⟩).personTags ↔
      (("Manual" ∈ (["Manual", "Lead", "Q4"] : List String) ∧
          ¬("Manual" ∈ contribTags ["Lead"] "Q4" ∧
            "Manual" ∉ contribTags ["Hot"] "Q1")) ∨
        "Manual" ∈ contribTags ["Hot"] "Q1") :=
  (campaign_change_set_semantics.1
    [⟨"idA", "Q4", ["Lead"], []⟩, ⟨"idB", "Q1", ["Hot"], []⟩]
    (some "idA") (some "idB") ⟨["Manual", "Lead", "Q4"], []⟩
    ⟨"idA", "Q4", ["Lead"], []⟩ ⟨"idB", "Q1", ["Hot"], []⟩
    (by decide) (by decide) (by decide) (by decide) "Manual").1

/-- Claim C3: the tag computation is idempotent — applying the same campaign's
tags a second time (with the same `forceApplyCompany` flag) leaves the tag
state exactly as after the first application: nothing is duplicated, added or
removed. -/
theorem applyCampaignTags_idempotent :
    ∀ (campaigns : List Campaign) (campaignId : Option String) (force : Bool)
      (st : TagState),
      applyCampaignTags campaigns campaignId force
          (applyCampaignTags campaigns campaignId force st) =
        applyCampaignTags campaigns campaignId force st := by
  intro campaigns campaignId force st
  cases hf : findCampaign campaigns campaignId with
  | none => simp [applyCampaignTags, hf]
  | some c =>
    simp only [applyCampaignTags, hf]
    cases force with
    | false => simp [addCampaignList_idem]
    | true => simp [addCampaignList_idem]

/-- The merge step of `scrapeProfileAndContactInfo` in background.js: the
overlay ("contact info" modal) pass `contactData` is merged into the main-page
pass `data`; the overlay wins on `website`/`url` when present and different,
on `email`/`phone`/`birthday` when non-empty, and on `additional_info` when
its text is strictly longer. -/
def mergeRecords (data contactData : ProfileRecord) : ProfileRecord :=
  let d1 :=
    if contactData.website != "" && contactData.website != data.website then
      { data with website := contactData.website, url := contactData.website }
    else data
  let d2 :=
    { d1 with
      email := if contactData.email != "" then contactData.email else d1.email,
      phone := if contactData.phone != "" then contactData.phone else d1.phone,
      birthday := if contactData.birthday != "" then contactData.birthday else d1.birthday }
  if contactData.additional_info != "" &&
      contactData.additional_info.length > d2.additional_info.length then
    { d2 with additional_info := contactData.additional_info }
  else d2

/-- The main-pass record of the specification's merge example. -/
def mainPassExample : ProfileRecord :=
  { url := "https://x/in/a", name := "", job_position := "", photo := "",
    company := "", city := "", website := "https://x/in/a", email := "",
    phone := "", additional_info := "", company_photo := "",
    company_linkedin_url := "", birthday := "" }

/-- The overlay-pass record of the specification's merge example. -/
def overlayPassExample : ProfileRecord :=
  { url := "https://x/in/a/clean", name := "", job_position := "", photo := "",
    company := "", city := "", website := "https://x/in/a/clean",
    email := "e@x.com", phone := "", additional_info := "",
    company_photo := "", company_linkedin_url := "", birthday := "" }

/-- Claim C4: the merged record takes the overlay's `website` when present and
different from the main value, and the overlay's `email`, `phone` and
`birthday` whenever non-empty, falling back to the main-pass value otherwise;
on the specification's example the merge yields
`website = "https://x/in/a/clean"` and `email = "e@x.com"`. -/
theorem merge_contact_fields_priority :
    (∀ main overlay : ProfileRecord,
      (mergeRecords main overlay).website =
        (if overlay.website ≠ "" ∧ overlay.website ≠ main.website
         then overlay.website else main.website) ∧
      (mergeRecords main overlay).url =
        (if overlay.website ≠ "" ∧ overlay.website ≠ main.website
         then overlay.website else main.url) ∧
      (mergeRecords main overlay).email =
        (if overlay.email ≠ "" then overlay.email else main.email) ∧
      (mergeRecords main overlay).phone =
        (if overlay.phone ≠ "" then overlay.phone else main.phone) ∧
      (mergeRecords main overlay).birthday =
        (if overlay.birthday ≠ "" then overlay.birthday else main.birthday)) ∧
    (mergeRecords mainPassExample overlayPassExample).website =
      "https://x/in/a/clean" ∧
    (mergeRecords mainPassExample overlayPassExample).email = "e@x.com" := by
  refine ⟨?_, by decide, by decide⟩
  intro main overlay
  refine ⟨?_, ?_, ?_, ?_, ?_⟩ <;>
    simp only [mergeRecords, apply_ite ProfileRecord.website,
      apply_ite ProfileRecord.url, apply_ite ProfileRecord.email,
      apply_ite ProfileRecord.phone, apply_ite ProfileRecord.birthday,
      ite_self, Bool.and_eq_true, bne_iff_ne]

/-- One external link collected for the "websites" bucket of
`scrapeLinkedInProfile` (resolved url plus the link's description text). -/
structure WebsiteEntry where
  url : String
  desc : String
deriving DecidableEq, Repr

/-- The `seenUrls` loop of `scrapeLinkedInProfile`: keep an entry only when
its url has not been seen yet (first occurrence wins, order preserved). -/
def dedupWebsitesAux (seenUrls : List String) : List WebsiteEntry → List WebsiteEntry
  | [] => []
  | w :: rest =>
    if seenUrls.contains w.url then dedupWebsitesAux seenUrls rest
    else w :: dedupWebsitesAux (seenUrls ++ [w.url]) rest

/-- Deduplication of the website list by resolved url, as performed before the
list is joined into `additional_info`. -/
def dedupWebsites (websiteList : List WebsiteEntry) : List WebsiteEntry :=
  dedupWebsitesAux [] websiteList

/-- One line of the websites block: the url followed by the parenthesised
description when the latter is truthy. -/
def websiteLine (w : WebsiteEntry) : String :=
  w.url ++ (if w.desc != "" then " (" ++ w.desc ++ ")" else "")

/-- The `parts` array built at the end of `scrapeLinkedInProfile`
(background.js): deduplicated websites block, then the birthday line, then the
about text, then any extra contact info, each block present only when its
source value is non-empty. -/
def composeParts (websiteList : List WebsiteEntry) (birthday about : String)
    (extraContactInfo : List String) : List String :=
  (if websiteList.length > 0 then
      "Websites:" :: (dedupWebsites websiteList).map websiteLine ++ [""]
    else []) ++
  (if birthday != "" then ["Birthday: " ++ birthday, ""] else []) ++
  (if about != "" then ["About:", about, ""] else []) ++
  (if extraContactInfo.length > 0 then
      ["Other Info:", String.intercalate "\n" extraContactInfo] else [])

/-- `data.additional_info = parts.join('\n').trim()`. -/
def composeAdditionalInfo (websiteList : List WebsiteEntry) (birthday about : String)
    (extraContactInfo : List String) : String :=
  (String.intercalate "\n" (composeParts websiteList birthday about extraContactInfo)).trim

theorem mem_dedupWebsitesAux_url (websiteList : List WebsiteEntry)
    (seenUrls : List String) (u : String) :
    u ∈ (dedupWebsitesAux seenUrls websiteList).map (·.url) ↔
      u ∈ websiteList.map (·.url) ∧ u ∉ seenUrls := by
  induction websiteList generalizing seenUrls with
  | nil => simp [dedupWebsitesAux]
  | cons w rest ih =>
    by_cases h : seenUrls.contains w.url = true
    · have hm : w.url ∈ seenUrls := (contains_iff_mem _ _).mp h
      simp only [dedupWebsitesAux, if_pos h, ih, List.map_cons, List.mem_cons]
      by_cases hew : u = w.url
      · subst hew
        tauto
      · tauto
    · have hm : w.url ∉ seenUrls := fun hc => h ((contains_iff_mem _ _).mpr hc)
      simp only [dedupWebsitesAux, if_neg h, List.map_cons, List.mem_cons, ih,
        List.mem_append, List.mem_singleton]
      by_cases hew : u = w.url
      · subst hew
        tauto
      · tauto

theorem nodup_dedupWebsitesAux (websiteList : List WebsiteEntry)
    (seenUrls : List String) :
    ((dedupWebsitesAux seenUrls websiteList).map (·.url)).Nodup := by
  induction websiteList generalizing seenUrls with
  | nil => simp [dedupWebsitesAux]
  | cons w rest ih =>
    by_cases h : seenUrls.contains w.url = true
    · simpa only [dedupWebsitesAux, if_pos h] using ih seenUrls
    · simp only [dedupWebsitesAux, if_neg h, List.map_cons, List.nodup_cons]
      refine ⟨?_, ih _⟩
      rw [mem_dedupWebsitesAux_url]
      rintro ⟨-, habs⟩
      exact habs (by simp)

theorem dedupWebsitesAux_sublist (websiteList : List WebsiteEntry)
    (seenUrls : List String) :
    List.Sublist (dedupWebsitesAux seenUrls websiteList) websiteList := by
  induction websiteList generalizing seenUrls with
  | nil => simp [dedupWebsitesAux]
  | cons w rest ih =>
    by_cases h : seenUrls.contains w.url = true
    · simp only [dedupWebsitesAux, if_pos h]
      exact List.Sublist.cons w (ih seenUrls)
    · simp only [dedupWebsitesAux, if_neg h]
      exact List.Sublist.cons₂ w (ih _)

/-- Claim C5: the merged `additional_info` equals the overlay's composed text
exactly when it is strictly longer than the main-pass text (and the main-pass
text otherwise); and the composed parts always contain, in this order, the
deduplicated website list, the birthday line and the about text, where the
deduplication keeps the first occurrence of each url, preserves order, and
loses no url — as on the example list `[a, a, b]`, which dedupes to `a, b`. -/
theorem merge_additional_info_and_composition :
    (∀ main overlay : ProfileRecord,
      (mergeRecords main overlay).additional_info =
        (if overlay.additional_info.length > main.additional_info.length
         then overlay.additional_info else main.additional_info)) ∧
    (∀ (websiteList : List WebsiteEntry) (birthday about : String)
        (extraContactInfo : List String),
      List.Sublist
        ((dedupWebsites websiteList).map websiteLine ++
          ((if birthday ≠ "" then ["Birthday: " ++ birthday] else []) ++
            (if about ≠ "" then [about] else [])))
        (composeParts websiteList birthday about extraContactInfo)) ∧
    (∀ websiteList : List WebsiteEntry,
      ((dedupWebsites websiteList).map (·.url)).Nodup ∧
      List.Sublist (dedupWebsites websiteList) websiteList ∧
      (∀ u, u ∈ (dedupWebsites websiteList).map (·.url) ↔
        u ∈ websiteList.map (·.url))) ∧
    dedupWebsites [⟨"a", ""⟩, ⟨"a", ""⟩, ⟨"b", ""⟩] = [⟨"a", ""⟩, ⟨"b", ""⟩] := by
  refine ⟨?_, ?_, ?_, by decide⟩
  · intro main overlay
    simp only [mergeRecords, apply_ite ProfileRecord.additional_info, ite_self,
      Bool.and_eq_true, bne_iff_ne]
    by_cases h0 : overlay.additional_info = ""
    · have : ¬ overlay.additional_info.length > main.additional_info.length := by
        simp [h0]
      simp [h0, this]
    · simp [h0]
  · intro websiteList birthday about extraContactInfo
    have s1 : List.Sublist ((dedupWebsites websiteList).map websiteLine)
        (if websiteList.length > 0 then
          "Websites:" :: (dedupWebsites websiteList).map websiteLine ++ [""]
         else []) := by
      cases websiteList with
      | nil => simp [dedupWebsites, dedupWebsitesAux]
      | cons w rest =>
        rw [if_pos (by simp)]
        exact List.Sublist.cons _ (List.sublist_append_left _ _)
    have s2 : List.Sublist (if birthday ≠ "" then ["Birthday: " ++ birthday] else [])
        (if birthday != "" then ["Birthday: " ++ birthday, ""] else []) := by
      by_cases hb : birthday = ""
      · simp [hb]
      · rw [if_pos (by simpa using hb), if_pos (by simp [bne_iff_ne, hb])]
        refine List.Sublist.cons₂ _ ?_
        exact List.nil_sublist _
      -- each branch keeps the birthday line itself
    have s3 : List.Sublist (if about ≠ "" then [about] else [])
        ((if about != "" then ["About:", about, ""] else []) ++
          (if extraContactInfo.length > 0 then
            ["Other Info:", String.intercalate "\n" extraContactInfo] else [])) := by
      refine List.Sublist.trans ?_ (List.sublist_append_left _ _)
      by_cases ha : about = ""
      · simp [ha]
      · rw [if_pos (by simpa using ha), if_pos (by simp [bne_iff_ne, ha])]
        refine List.Sublist.cons _ ?_
        refine List.Sublist.cons₂ _ ?_
        exact List.nil_sublist _
    simpa only [composeParts, List.append_assoc] using
      List.Sublist.append s1 (List.Sublist.append s2 s3)
  · intro websiteList
    refine ⟨nodup_dedupWebsitesAux websiteList [], dedupWebsitesAux_sublist websiteList [], ?_⟩
    intro u
    rw [dedupWebsites, mem_dedupWebsitesAux_url]
    simp

/-- The outcome of one `fetch` as observed by the caller: the promise
rejected (`netError`), the response arrived with `res.ok` false
(`httpError`, with status and optional json `detail`), or it arrived ok
with a parsed body. -/
inductive FetchOutcome (α : Type) where
  | netError : FetchOutcome α
  | httpError (status : Nat) (detail : Option String) : FetchOutcome α
  | ok (body : α) : FetchOutcome α
deriving DecidableEq, Repr

/-- The json body of a `/create_contact` response with `res.ok` true: it may
still carry a logical `detail` error, otherwise the created/updated ids. -/
structure CreateResponse where
  detail : Option String
  person_id : Option String
  company_id : Option String
deriving DecidableEq, Repr

/-- The campaign tag computation of `handleFloatingButtonClick` (steps 2-3 in
background.js): resolve the current campaign and collect its person/company
tags plus its name. -/
def computeCampaignTags (campaigns : List Campaign) (currentCampaignId : Option String) :
    List String × List String :=
  match currentCampaignId with
  | none => ([], [])
  | some cid =>
    if campaigns.length > 0 then
      match campaigns.find? (fun c => c.id == cid) with
      | some c =>
        (c.person_tags ++ (if c.name != "" then [c.name] else []),
         c.company_tags ++ (if c.name != "" then [c.name] else []))
      | none => ([], [])
    else ([], [])

/-- `[...new Set(arr)]`: deduplication preserving first occurrences. -/
def dedupFirstAux (seen : List String) : List String → List String
  | [] => []
  | t :: rest =>
    if seen.contains t then dedupFirstAux seen rest
    else t :: dedupFirstAux (seen ++ [t]) rest

/-- Spread of a `Set` built from a list, as used for the `tags` and
`company_tags` payload fields. -/
def dedupFirst (l : List String) : List String :=
  dedupFirstAux [] l

/-- The externally observable result of one floating-button click. -/
structure ClickOutcome where
  contactExists : Bool
  contactId : Option String
  campaignsRequested : Bool
  uploadRequested : Bool
  sentTags : Option String
  sentCompanyTags : Option String
  toastError : Bool
deriving DecidableEq, Repr

/-- `handleFloatingButtonClick` from background.js, with every remote/DOM
effect passed in as an explicit outcome: missing backend URL and scrape
failure are thrown and caught (error toast, nothing else changes); an empty
profile is rejected locally before any request; a campaigns fetch failure is
ignored; the upload is attempted once, and only an ok response without a
`detail` error sets `contactExists` to true and stores the returned id. -/
def handleFloatingButtonClick (prevExists : Bool) (prevId : Option String)
    (backendUrl : Option String) (currentCampaignId : Option String)
    (scraped : Except String ProfileRecord)
    (campaignsRes : FetchOutcome (List Campaign))
    (uploadRes : FetchOutcome CreateResponse) : ClickOutcome :=
  match backendUrl with
  | none =>
    { contactExists := prevExists, contactId := prevId, campaignsRequested := false,
      uploadRequested := false, sentTags := none, sentCompanyTags := none,
      toastError := true }
  | some _ =>
    match scraped with
    | .error _ =>
      { contactExists := prevExists, contactId := prevId, campaignsRequested := false,
        uploadRequested := false, sentTags := none, sentCompanyTags := none,
        toastError := true }
    | .ok profileData =>
      if isProfileDataEmpty profileData then
        { contactExists := prevExists, contactId := prevId, campaignsRequested := false,
          uploadRequested := false, sentTags := none, sentCompanyTags := none,
          toastError := true }
      else
        let campaigns : List Campaign :=
          match campaignsRes with
          | .ok cs => cs
          | _ => []
        let campaignTags := computeCampaignTags campaigns currentCampaignId
        let tags := String.intercalate "," (dedupFirst campaignTags.1)
        let companyTags := String.intercalate "," (dedupFirst campaignTags.2)
        match uploadRes with
        | .netError =>
          { contactExists := prevExists, contactId := prevId, campaignsRequested := true,
            uploadRequested := true, sentTags := some tags,
            sentCompanyTags := some companyTags, toastError := true }
        | .httpError _ _ =>
          { contactExists := prevExists, contactId := prevId, campaignsRequested := true,
            uploadRequested := true, sentTags := some tags,
            sentCompanyTags := some companyTags, toastError := true }
        | .ok resp =>
          match resp.detail with
          | some _ =>
            { contactExists := prevExists, contactId := prevId, campaignsRequested := true,
              uploadRequested := true, sentTags := some tags,
              sentCompanyTags := some companyTags, toastError := true }
          | none =>
            { contactExists := true, contactId := resp.person_id, campaignsRequested := true,
              uploadRequested := true, sentTags := some tags,
              sentCompanyTags := some companyTags, toastError := false }

/-- True exactly when a `/create_contact` outcome is the success path of the
click handler: an ok response whose body carries no `detail` error. -/
def isUploadSuccess : FetchOutcome CreateResponse → Bool
  | .ok resp => resp.detail == none
  | _ => false

/-- Claim C6: a failed `/create_contact` call — network exception, non-ok
response, or an ok response carrying an error `detail` — leaves the local
existence state (`contactExists`, the "create" vs "update" label) unchanged;
`contactExists` is set to `true` only on a successful response. -/
theorem upload_failure_preserves_contactExists
    (prevExists : Bool) (prevId : Option String)
    (backendUrl : Option String) (currentCampaignId : Option String)
    (scraped : Except String ProfileRecord)
    (campaignsRes : FetchOutcome (List Campaign))
    (uploadRes : FetchOutcome CreateResponse) :
    (isUploadSuccess uploadRes = false →
      (handleFloatingButtonClick prevExists prevId backendUrl currentCampaignId
          scraped campaignsRes uploadRes).contactExists = prevExists) ∧
    ((handleFloatingButtonClick prevExists prevId backendUrl currentCampaignId
        scraped campaignsRes uploadRes).uploadRequested = true →
      isUploadSuccess uploadRes = true →
      (handleFloatingButtonClick prevExists prevId backendUrl currentCampaignId
          scraped campaignsRes uploadRes).contactExists = true) := by
  cases backendUrl with
  | none => simp [handleFloatingButtonClick]
  | some b =>
    cases scraped with
    | error e => simp [handleFloatingButtonClick]
    | ok profileData =>
      by_cases hempty : isProfileDataEmpty profileData = true
      · simp [handleFloatingButtonClick, hempty]
      · cases uploadRes with
        | netError =>
          simp [handleFloatingButtonClick, hempty, isUploadSuccess]
        | httpError s d =>
          simp [handleFloatingButtonClick, hempty, isUploadSuccess]
        | ok resp =>
          cases hd : resp.detail with
          | none =>
            simp [handleFloatingButtonClick, hempty, isUploadSuccess, hd]
          | some msg =>
            simp [handleFloatingButtonClick, hempty, isUploadSuccess, hd]

/-- Witness for claim C6's theorem: with `contactExists = false` before the
click and a network error on upload, the state stays `false`. -/
theorem upload_failure_preserves_contactExists_witness :
    (handleFloatingButtonClick false none (some "http://b") none
        (.ok websiteOnlyRecord) (.ok []) .netError).contactExists = false :=
  (upload_failure_preserves_contactExists false none (some "http://b") none
      (.ok websiteOnlyRecord) (.ok []) .netError).1 (by decide)

/-- The object saved per profile URL by the popup's `saveState`: the form
field values plus the four pill arrays. -/
structure SessionData where
  fields : List (String × String)
  personTags : List String
  companyTags : List String
  personInfoItems : List String
  companyInfoItems : List String
deriving DecidableEq, Repr

/-- `chrome.storage.session`, keyed by profile URL. -/
abbrev SessionCache := List (String × SessionData)

/-- `chrome.storage.session.remove(url)`. -/
def removeSessionKey (cache : SessionCache) (url : String) : SessionCache :=
  cache.filter (fun kv => kv.1 != url)

/-- The result of the popup's `/create_contact` fetch: the promise rejected,
an ok response (the popup takes any `res.ok` response as success), a 422
validation response, or another non-ok status. -/
inductive UploadHttpResult where
  | netError : UploadHttpResult
  | ok (person_id : Option String) (company_id : Option String) : UploadHttpResult
  | unprocessable (detail : Option String) : UploadHttpResult
  | otherError (status : Nat) (detail : Option String) : UploadHttpResult
deriving DecidableEq, Repr

/-- Every non-`ok` upload result. -/
def isUploadHttpFailure : UploadHttpResult → Bool
  | .ok _ _ => false
  | _ => true

/-- The externally observable result of the popup's `handleUpload`. -/
structure UploadOutcome where
  cache : SessionCache
  requested : Bool
  resultError : Bool
deriving DecidableEq, Repr

/-- `handleUpload` from the popup script: missing credentials or an empty
payload stop it before any request; a missing backend URL throws and is
caught; on an ok response the session cache entry for the current URL is
removed, on every failure the cache is untouched. -/
def handleUpload (cache : SessionCache) (currentTabUrl : String)
    (hasCredentials : Bool) (payload : Payload) (backendUrl : Option String)
    (res : UploadHttpResult) : UploadOutcome :=
  if !hasCredentials then
    { cache := cache, requested := false, resultError := true }
  else if isPayloadDataEmpty payload then
    { cache := cache, requested := false, resultError := true }
  else
    match backendUrl with
    | none => { cache := cache, requested := false, resultError := true }
    | some _ =>
      match res with
      | .ok _ _ =>
        { cache := removeSessionKey cache currentTabUrl, requested := true,
          resultError := false }
      | .netError => { cache := cache, requested := true, resultError := true }
      | .unprocessable _ => { cache := cache, requested := true, resultError := true }
      | .otherError _ _ => { cache := cache, requested := true, resultError := true }

/-- A profile record with every field empty. -/
def blankRecord : ProfileRecord :=
  { url := "", name := "", job_position := "", photo := "", company := "",
    city := "", website := "", email := "", phone := "", additional_info := "",
    company_photo := "", company_linkedin_url := "", birthday := "" }

/-- A payload with every field empty. -/
def blankPayload : Payload :=
  { name := "", company := "", job_position := "", email := "", phone := "",
    website := "", city := "", photo := "", company_photo := "",
    company_linkedin_url := "" }

/-- Claim C7: a profile classified as empty is rejected locally by both upload
paths — the floating-button handler and the popup's `handleUpload` surface an
error immediately and issue no request to `/create_contact` (nor, for the
button handler, to `/campaigns`). -/
theorem empty_profile_rejected_locally :
    (∀ (prevExists : Bool) (prevId : Option String)
        (backendUrl currentCampaignId : Option String)
        (profileData : ProfileRecord)
        (campaignsRes : FetchOutcome (List Campaign))
        (uploadRes : FetchOutcome CreateResponse),
      isProfileDataEmpty profileData = true →
      (handleFloatingButtonClick prevExists prevId backendUrl currentCampaignId
          (.ok profileData) campaignsRes uploadRes).uploadRequested = false ∧
      (handleFloatingButtonClick prevExists prevId backendUrl currentCampaignId
          (.ok profileData) campaignsRes uploadRes).campaignsRequested = false ∧
      (handleFloatingButtonClick prevExists prevId backendUrl currentCampaignId
          (.ok profileData) campaignsRes uploadRes).toastError = true) ∧
    (∀ (cache : SessionCache) (currentTabUrl : String) (payload : Payload)
        (backendUrl : Option String) (res : UploadHttpResult),
      isPayloadDataEmpty payload = true →
      (handleUpload cache currentTabUrl true payload backendUrl res).requested = false ∧
      (handleUpload cache currentTabUrl true payload backendUrl res).resultError = true) := by
  constructor
  · intro prevExists prevId backendUrl currentCampaignId profileData campaignsRes
      uploadRes hempty
    cases backendUrl with
    | none => simp [handleFloatingButtonClick]
    | some b => simp [handleFloatingButtonClick, hempty]
  · intro cache currentTabUrl payload backendUrl res hempty
    simp [handleUpload, hempty]

/-- Witness for claim C7's theorem: the blank record is rejected by the
floating-button handler without any request. -/
theorem empty_profile_rejected_locally_witness :
    (handleFloatingButtonClick false none (some "http://b") none
        (.ok blankRecord) (.ok []) .netError).uploadRequested = false :=
  (empty_profile_rejected_locally.1 false none (some "http://b") none
      blankRecord (.ok []) .netError (by decide)).1

/-- The json body of an ok `/check_contact` response (`exists` and `id`). -/
structure CheckResponse where
  existsFlag : Bool
  id : Option String
deriving DecidableEq, Repr

/-- The externally observable result of one `checkContactStatus` run:
the resulting existence flag and id, whether an error was written to the
console at the point of failure, and how many `/check_contact` requests
went out. -/
structure CheckOutcome where
  contactExists : Bool
  contactId : Option String
  loggedError : Bool
  requestsMade : Nat
deriving DecidableEq, Repr

/-- `checkContactStatus` from background.js: no request without credentials,
off a profile page, or without a scraped name; otherwise exactly one request,
whose network failure or non-ok response resets `contactExists` to `false`
and logs the error, and whose ok response installs the returned values. -/
def checkContactStatus (prevExists : Bool) (prevId : Option String)
    (hasCredentials onProfilePage : Bool) (name : String)
    (res : FetchOutcome CheckResponse) : CheckOutcome :=
  if !hasCredentials then
    { contactExists := prevExists, contactId := prevId, loggedError := false,
      requestsMade := 0 }
  else if !onProfilePage then
    { contactExists := prevExists, contactId := prevId, loggedError := false,
      requestsMade := 0 }
  else if name == "" then
    { contactExists := prevExists, contactId := prevId, loggedError := false,
      requestsMade := 0 }
  else
    match res with
    | .netError =>
      { contactExists := false, contactId := prevId, loggedError := true,
        requestsMade := 1 }
    | .httpError _ _ =>
      { contactExists := false, contactId := prevId, loggedError := true,
        requestsMade := 1 }
    | .ok r =>
      { contactExists := r.existsFlag, contactId := r.id, loggedError := false,
        requestsMade := 1 }

/-- A `/check_contact` outcome that is a network throw or a non-ok response. -/
def isCheckFailure : FetchOutcome CheckResponse → Bool
  | .netError => true
  | .httpError _ _ => true
  | .ok _ => false

/-- Claim C8: when the identity check's request throws or returns non-ok, the
result is `exists = false` (fail-open to "create"), the error is logged at
the point of origin, and exactly one request was made; in every case the
check issues at most one request (it is never retried). -/
theorem check_contact_fails_open (prevExists : Bool) (prevId : Option String)
    (hasCredentials onProfilePage : Bool) (name : String)
    (res : FetchOutcome CheckResponse) :
    (hasCredentials = true → onProfilePage = true → name ≠ "" →
      isCheckFailure res = true →
      (checkContactStatus prevExists prevId hasCredentials onProfilePage
          name res).contactExists = false ∧
      (checkContactStatus prevExists prevId hasCredentials onProfilePage
          name res).loggedError = true ∧
      (checkContactStatus prevExists prevId hasCredentials onProfilePage
          name res).requestsMade = 1) ∧
    (checkContactStatus prevExists prevId hasCredentials onProfilePage
        name res).requestsMade ≤ 1 := by
  constructor
  · intro hc hp hn hf
    subst hc
    subst hp
    have hb : (name == "") = false := by
      simp [hn]
    cases res with
    | netError => simp [checkContactStatus, hb]
    | httpError s d => simp [checkContactStatus, hb]
    | ok r => simp [isCheckFailure] at hf
  · cases hasCredentials with
    | false => simp [checkContactStatus]
    | true =>
      cases onProfilePage with
      | false => simp [checkContactStatus]
      | true =>
        by_cases hb : (name == "") = true
        · simp [checkContactStatus, hb]
        · cases res with
          | netError => simp [checkContactStatus, hb]
          | httpError s d => simp [checkContactStatus, hb]
          | ok r => simp [checkContactStatus, hb]

/-- Witness for claim C8's theorem: a network error on the check, with
credentials present and a name scraped, yields `contactExists = false`,
a logged error, and a single request. -/
theorem check_contact_fails_open_witness :
    (checkContactStatus true (some "7") true true "Jane Doe"
        .netError).contactExists = false :=
  ((check_contact_fails_open true (some "7") true true "Jane Doe"
      .netError).1 rfl rfl (by decide) (by decide)).1

theorem find?_removeSessionKey_self (cache : SessionCache) (url : String) :
    (removeSessionKey cache url).find? (fun kv => kv.1 == url) = none := by
  induction cache with
  | nil => rfl
  | cons kv rest ih =>
    by_cases hk : kv.1 = url
    · have hb : (kv.1 != url) = false := by simp [hk]
      simp only [removeSessionKey, List.filter_cons, hb, Bool.false_eq_true,
        if_false] at *
      exact ih
    · have hb : (kv.1 != url) = true := by simp [bne_iff_ne, hk]
      have hp : (kv.1 == url) = false := by simp [hk]
      simp only [removeSessionKey, List.filter_cons, hb, if_true] at *
      rw [List.find?_cons, hp]
      exact ih

theorem find?_removeSessionKey_ne (cache : SessionCache) (url u : String)
    (h : u ≠ url) :
    (removeSessionKey cache url).find? (fun kv => kv.1 == u) =
      cache.find? (fun kv => kv.1 == u) := by
  induction cache with
  | nil => rfl
  | cons kv rest ih =>
    by_cases hk : kv.1 = url
    · have hb : (kv.1 != url) = false := by simp [hk]
      have hp : (kv.1 == u) = false := by
        rw [beq_eq_false_iff_ne]
        rw [hk]
        exact fun e => h e.symm
      simp only [removeSessionKey, List.filter_cons, hb, Bool.false_eq_true,
        if_false] at *
      conv_rhs => rw [List.find?_cons, hp]
      exact ih
    · have hb : (kv.1 != url) = true := by simp [bne_iff_ne, hk]
      simp only [removeSessionKey, List.filter_cons, hb, if_true] at *
      by_cases hu : kv.1 = u
      · have hp : (kv.1 == u) = true := by simp [hu]
        rw [List.find?_cons, List.find?_cons, hp]
      · have hp : (kv.1 == u) = false := by simp [hu]
        rw [List.find?_cons, List.find?_cons, hp]
        exact ih

/-- Claim C10: a successful `/create_contact` upload from the popup removes
exactly the session-cache entry of the current profile URL (every other URL's
entry still resolves as before), while a failed or erroring upload leaves the
cache untouched. -/
theorem upload_session_cache_semantics :
    (∀ (cache : SessionCache) (currentTabUrl : String) (hasCredentials : Bool)
        (payload : Payload) (backendUrl : Option String)
        (pid cid : Option String),
      (handleUpload cache currentTabUrl hasCredentials payload backendUrl
          (.ok pid cid)).requested = true →
      (handleUpload cache currentTabUrl hasCredentials payload backendUrl
          (.ok pid cid)).cache = removeSessionKey cache currentTabUrl ∧
      (handleUpload cache currentTabUrl hasCredentials payload backendUrl
          (.ok pid cid)).cache.find? (fun kv => kv.1 == currentTabUrl) = none ∧
      (∀ u, u ≠ currentTabUrl →
        (handleUpload cache currentTabUrl hasCredentials payload backendUrl
            (.ok pid cid)).cache.find? (fun kv => kv.1 == u) =
          cache.find? (fun kv => kv.1 == u))) ∧
    (∀ (cache : SessionCache) (currentTabUrl : String) (hasCredentials : Bool)
        (payload : Payload) (backendUrl : Option String)
        (res : UploadHttpResult),
      isUploadHttpFailure res = true →
      (handleUpload cache currentTabUrl hasCredentials payload backendUrl
          res).cache = cache) := by
  constructor
  · intro cache currentTabUrl hasCredentials payload backendUrl pid cid hreq
    cases hasCredentials with
    | false => simp [handleUpload] at hreq
    | true =>
      by_cases hempty : isPayloadDataEmpty payload = true
      · simp [handleUpload, hempty] at hreq
      · cases backendUrl with
        | none => simp [handleUpload, hempty] at hreq
        | some b =>
          refine ⟨by simp [handleUpload, hempty], ?_, ?_⟩
          · simp only [handleUpload, hempty, Bool.not_true, Bool.false_eq_true,
              if_false, ite_false, Bool.not_false, if_true]
            simpa using find?_removeSessionKey_self cache currentTabUrl
          · intro u hu
            simp only [handleUpload, hempty, Bool.not_true, Bool.false_eq_true,
              if_false, ite_false, Bool.not_false, if_true]
            simpa using find?_removeSessionKey_ne cache currentTabUrl u hu
  · intro cache currentTabUrl hasCredentials payload backendUrl res hfail
    cases hasCredentials with
    | false => simp [handleUpload]
    | true =>
      by_cases hempty : isPayloadDataEmpty payload = true
      · simp [handleUpload, hempty]
      · cases backendUrl with
        | none => simp [handleUpload, hempty]
        | some b =>
          cases res with
          | netError => simp [handleUpload, hempty]
          | ok pid cid => simp [isUploadHttpFailure] at hfail
          | unprocessable d => simp [handleUpload, hempty]
          | otherError s d => simp [handleUpload, hempty]

/-- Witness for claim C10's theorem: with one cached entry for the uploaded
URL, a successful upload empties the cache for that URL, and a network error
leaves the cache unchanged. -/
theorem upload_session_cache_semantics_witness :
    (handleUpload [("https://www.linkedin.com/in/a", ⟨[], [], [], [], []⟩)]
        "https://www.linkedin.com/in/a" true
        { blankPayload with name := "Jane" } (some "http://b")
        (.ok (some "42") none)).cache =
      removeSessionKey [("https://www.linkedin.com/in/a", ⟨[], [], [], [], []⟩)]
        "https://www.linkedin.com/in/a" ∧
    (handleUpload [("https://www.linkedin.com/in/a", ⟨[], [], [], [], []⟩)]
        "https://www.linkedin.com/in/a" true
        { blankPayload with name := "Jane" } (some "http://b")
        .netError).cache =
      [("https://www.linkedin.com/in/a", ⟨[], [], [], [], []⟩)] :=
  ⟨(upload_session_cache_semantics.1
      [("https://www.linkedin.com/in/a", ⟨[], [], [], [], []⟩)]
      "https://www.linkedin.com/in/a" true
      { blankPayload with name := "Jane" } (some "http://b")
      (some "42") none (by decide)).1,
   upload_session_cache_semantics.2
      [("https://www.linkedin.com/in/a", ⟨[], [], [], [], []⟩)]
      "https://www.linkedin.com/in/a" true
      { blankPayload with name := "Jane" } (some "http://b")
      .netError (by decide)⟩

/-- The prefix of `s` before the first occurrence of the separator `sep`
(the whole of `s` when `sep` does not occur): `s.split(sep)[0]` on the
character-list level. -/
def takeBeforeSub (sep : List Char) : List Char → List Char
  | [] => []
  | c :: rest =>
    if sep.isPrefixOf (c :: rest) then [] else c :: takeBeforeSub sep rest

/-- `s.includes(sep)` on the character-list level. -/
def hasSub (sep : List Char) : List Char → Bool
  | [] => sep.isEmpty
  | c :: rest => sep.isPrefixOf (c :: rest) || hasSub sep rest

/-- `s.split(sep)[0]` for a non-empty separator string. -/
def jsSplitFirst (sep s : String) : String :=
  String.mk (takeBeforeSub sep.data s.data)

/-- The URL canonicalization at the top of `scrapeLinkedInProfile`
(background.js): `window.location.href.split('?')[0]`, and, when the result
still contains `/overlay/`, additionally `split('/overlay/')[0]`. -/
def canonicalProfileUrl (href : String) : String :=
  let currentUrl := jsSplitFirst "?" href
  if hasSub "/overlay/".data currentUrl.data then
    jsSplitFirst "/overlay/" currentUrl
  else currentUrl

/-- The record initializer of `scrapeLinkedInProfile` (background.js): both
`url` and `website` start as the canonicalized page URL, before any DOM
extraction; every other field starts empty. -/
def initialScrapeData (href : String) : ProfileRecord :=
  { url := canonicalProfileUrl href, name := "", job_position := "",
    photo := "", company := "", city := "",
    website := canonicalProfileUrl href, email := "", phone := "",
    additional_info := "", company_photo := "", company_linkedin_url := "",
    birthday := "" }

theorem takeBeforeSub_cons_ne (d : Char) (sep : List Char) (c : Char)
    (l : List Char) (h : c ≠ d) :
    takeBeforeSub (d :: sep) (c :: l) = c :: takeBeforeSub (d :: sep) l := by
  have hd : (d == c) = false := by
    rw [beq_eq_false_iff_ne]
    exact fun e => h e.symm
  simp [takeBeforeSub, List.isPrefixOf, hd]

/-- Claim C9: the scraper's record initializer sets both `url` and `website`
to the page URL canonicalized by stripping the query string and the
`/overlay/` path suffix (checked concretely on an overlay URL), so for any
page URL that does not itself start with `?` or `/` the scraped record's
`website` is non-empty before any DOM extraction succeeds. -/
theorem initial_scrape_url_canonical (href : String) (c : Char) (rest : List Char)
    (hdata : href.data = c :: rest) (hq : c ≠ '?') (hs : c ≠ '/') :
    (initialScrapeData href).url = canonicalProfileUrl href ∧
    (initialScrapeData href).website = canonicalProfileUrl href ∧
    (initialScrapeData href).website ≠ "" ∧
    canonicalProfileUrl "https://x/in/a/overlay/contact-info/?q=1" =
      "https://x/in/a" ∧
    (initialScrapeData "https://x/in/a/overlay/contact-info/?q=1").website =
      "https://x/in/a" := by
  have hqd : ("?" : String).data = ['?'] := by decide
  have hod : ("/overlay/" : String).data =
      ['/', 'o', 'v', 'e', 'r', 'l', 'a', 'y', '/'] := by decide
  have hnil : ("" : String).data = [] := by decide
  have h1 : (jsSplitFirst "?" href).data = c :: takeBeforeSub ['?'] rest := by
    simp only [jsSplitFirst, hdata, hqd]
    rw [takeBeforeSub_cons_ne '?' [] c rest hq]
  have hne : canonicalProfileUrl href ≠ "" := by
    by_cases ho : hasSub ("/overlay/" : String).data (jsSplitFirst "?" href).data = true
    · have h2 : (jsSplitFirst "/overlay/" (jsSplitFirst "?" href)).data =
          c :: takeBeforeSub ['/', 'o', 'v', 'e', 'r', 'l', 'a', 'y', '/']
            (takeBeforeSub ['?'] rest) := by
        simp only [jsSplitFirst, hdata, hqd, hod]
        rw [takeBeforeSub_cons_ne '?' [] c rest hq]
        rw [takeBeforeSub_cons_ne '/' _ c _ hs]
      simp only [canonicalProfileUrl, if_pos ho]
      intro habs
      have h3 := congrArg String.data habs
      rw [h2, hnil] at h3
      exact List.cons_ne_nil _ _ h3
    · simp only [canonicalProfileUrl, if_neg ho]
      intro habs
      have h3 := congrArg String.data habs
      rw [h1, hnil] at h3
      exact List.cons_ne_nil _ _ h3
  exact ⟨rfl, rfl, hne, by decide, by decide⟩

/-- Witness for claim C9's theorem: on a concrete profile URL carrying both a
query string and an overlay path suffix, the initialized `website` field is
non-empty. -/
theorem initial_scrape_url_canonical_witness :
    (initialScrapeData "https://x/in/a/overlay/contact-info/?q=1").website ≠ "" :=
  (initial_scrape_url_canonical "https://x/in/a/overlay/contact-info/?q=1"
      'h' "ttps://x/in/a/overlay/contact-info/?q=1".data
      (by decide) (by decide) (by decide)).2.2.1
